import Mathlib

/-
  Verification of the bingo game-server core (Parkreiner/bingo).

  Shallow embedding of the Go sources:
  - Ball, Cell, Card, GamePhase, GameEvent, subscription entries: bingo.go,
    events.go.
  - Ball registry: src/game/ballregistry.go and the variant carrying the
    lowercase method set (nextAutomaticCall) that also appends to `called`.
  - Shuffler: src/game/shuffler.go; Go's math/rand generator is external to
    the repository, so it is modelled as an abstract deterministic draw
    stream (see Shuffler below).
  - Subscriptions: src/subscriptions/subscriptions.go and the package-game
    variant (isEligibleForDispatch, dispatchUnsafe).
  - Daubing: src/game/commanduser.go setDaubValue and the variant with the
    free-space shortcut; processPlayerDaub / processPlayerUndoDaub.
  - Game: src/game/game.go Command and JoinGame.
  - Card registry uniqueness: generateUniqueEntry.
-/

namespace BingoSpec

/-- Ball is a byte in the source (0 = free space, 1..75 callable); modelled as
a natural number, with the byte wraparound made explicit where the source
subtracts in the byte type. -/
abbrev Ball := Nat

/-- MaxBallValue from bingo.go. -/
def MaxBallValue : Nat := 75

/-- MaxCards from bingo.go. -/
def MaxCards : Nat := 6

/-- Player identifiers; UUIDs in the source, abstracted to naturals since only
equality is used. -/
abbrev PlayerID := Nat

/-- GamePhase from bingo.go. -/
inductive GamePhase where
  | initialized
  | initializationFailure
  | roundStart
  | calling
  | confirmingBingo
  | tiebreaker
  | roundEnd
  | gameOver
deriving DecidableEq, Repr

/-- GameEventType from events.go. -/
inductive GameEventType where
  | update
  | error
deriving DecidableEq, Repr

/-- GameEvent from events.go; the ID / creator / timestamp fields play no role
in the claims below and are omitted. `etype` embeds the source's Type field. -/
structure GameEvent where
  phase : GamePhase
  etype : GameEventType
  message : String
  recipientIDs : List PlayerID
deriving DecidableEq, Repr

/-- Modelled from the spec: the shuffler wraps Go's math/rand generator (an
external library, not part of this repository). The spec pins it down only as
a seeded deterministic generator, so it is embedded as an abstract draw
stream determined by the seed, together with a position that advances by one
per draw. A call to Intn n consumes the draw at the current position and
reduces it modulo n. The single persistent generator per shuffler instance is
exactly as in src/game/shuffler.go. -/
structure Shuffler where
  stream : Nat → Nat
  pos : Nat

/-- One draw in the range 0..n-1, consuming one stream position. -/
def Shuffler.intn (s : Shuffler) (n : Nat) : Nat × Shuffler :=
  (s.stream s.pos % n, ⟨s.stream, s.pos + 1⟩)

/-- One Fisher-Yates swap step: new list has the element previously at j in
position i and vice versa (from the swap in shuffleBalls). -/
def swapAt (l : List Ball) (i j : Nat) : List Ball :=
  (l.set i (l.getD j 0)).set j (l.getD i 0)

/-- The loop body of shuffleBalls from src/game/shuffler.go: for i from
len-1 down to 1, draw randomIndex = Intn (i+1) and swap positions i and
randomIndex. The argument of the recursion is the current loop index. -/
def shuffleStep : List Ball → Shuffler → Nat → List Ball × Shuffler
  | l, s, 0 => (l, s)
  | l, s, Nat.succ i =>
    let d := s.intn (i + 2)
    shuffleStep (swapAt l (i + 1) d.1) d.2 i

/-- shuffleBalls from src/game/shuffler.go. -/
def shuffleBalls (s : Shuffler) (l : List Ball) : List Ball × Shuffler :=
  shuffleStep l s (l.length - 1)

/-- generateBingoBallsForRange from src/game/cellsgenerator.go: the contiguous
range start..e, or nil when the bounds are invalid. -/
def generateBingoBallsForRange (start e : Nat) : List Ball :=
  if e ≤ start ∨ start = 0 ∨ e = 0 ∨ MaxBallValue < start ∨ MaxBallValue < e then []
  else List.range' start (e - start + 1)

/-- ballRegistry from src/game/ballregistry.go (the mutex is dropped; the
methods below thread the state explicitly). -/
structure BallRegistry where
  called : List Ball
  uncalled : List Ball
  shuffler : Shuffler

/-- newBallRegistry from src/game/ballregistry.go, with the seed abstracted to
the draw stream it determines. -/
def newBallRegistry (stream : Nat → Nat) : BallRegistry :=
  let r := shuffleBalls ⟨stream, 0⟩ (generateBingoBallsForRange 1 75)
  { called := [], uncalled := r.1, shuffler := r.2 }

/-- NextAutomaticCall from src/game/ballregistry.go: on a non-empty uncalled
list, pops the last element and returns it. Note that this copy of the method
does not touch `called`. -/
def NextAutomaticCall (br : BallRegistry) : Except String (Ball × BallRegistry) :=
  if br.uncalled.length = 0 then
    Except.error "registry has no more bingo balls"
  else
    let l := br.uncalled.length - 1
    let next := br.uncalled.getD l 0
    Except.ok (next, { br with uncalled := br.uncalled.take l })

/-- nextAutomaticCall, the lowercase variant of the same method in the copy of
ballregistry.go that also defines getCalledBalls: it additionally appends the
popped ball to `called`. -/
def nextAutomaticCall (br : BallRegistry) : Except String (Ball × BallRegistry) :=
  if br.uncalled.length = 0 then
    Except.error "registry has no more bingo balls"
  else
    let l := br.uncalled.length - 1
    let next := br.uncalled.getD l 0
    Except.ok (next, { br with uncalled := br.uncalled.take l,
                               called := br.called ++ [next] })

/-- SyncManualCall from src/game/ballregistry.go: find the ball in uncalled
(first match), append it to called, and remove it from uncalled with the
remaining order preserved (the source's shift-left loop plus truncation is
exactly eraseIdx). -/
def SyncManualCall (br : BallRegistry) (ball : Ball) : Except String BallRegistry :=
  match br.uncalled.findIdx? (fun b => b == ball) with
  | none => Except.error "could not find bingo ball in list of uncalled bingo balls"
  | some i =>
    Except.ok { br with called := br.called ++ [br.uncalled.getD i 0],
                        uncalled := br.uncalled.eraseIdx i }

/-- Reset from src/game/ballregistry.go: regenerate 1..75, reshuffle with the
registry's persistent shuffler (whose position has advanced past every prior
shuffle), clear called. -/
def Reset (br : BallRegistry) : BallRegistry :=
  let r := shuffleBalls br.shuffler (generateBingoBallsForRange 1 75)
  { called := [], uncalled := r.1, shuffler := r.2 }

/-- A call performed on a ball registry, for stating properties about
arbitrary operation sequences. -/
inductive BallOp where
  | auto
  | manual (b : Ball)
  | resetOp
deriving Repr

/-- Run one operation; a failing call leaves the registry unchanged, as in the
source (the error is returned before any field is written). -/
def applyBallOp (br : BallRegistry) : BallOp → BallRegistry
  | BallOp.auto =>
    match NextAutomaticCall br with
    | Except.ok r => r.2
    | Except.error _ => br
  | BallOp.manual b =>
    match SyncManualCall br b with
    | Except.ok r => r
    | Except.error _ => br
  | BallOp.resetOp => Reset br

/-- Run a sequence of operations left to right. -/
def applyBallOps (br : BallRegistry) (ops : List BallOp) : BallRegistry :=
  ops.foldl applyBallOp br

/-- subscriptionEntry from the subscriptions manager; the channel and the
unsubscribe callback play no role in the filtering and counting logic. -/
structure SubscriptionEntry where
  sid : Nat
  filteredPhases : List GamePhase
  recipientIDs : List PlayerID
deriving DecidableEq, Repr

/-- isEligibleForDispatch from src/subscriptions/subscriptions.go. The initial
value of matchesPhaseFilters is the emptiness check of the subscription's
recipientIDs (not of filteredPhases), and recipientMatch starts false and
becomes true only via a member of the event's RecipientIDs that is also in
the subscription's recipientIDs — both exactly as in the source. -/
def isEligibleForDispatch (subscription : SubscriptionEntry) (event : GameEvent) : Bool :=
  let matchesPhaseFilters :=
    subscription.recipientIDs.isEmpty || subscription.filteredPhases.contains event.phase
  if !matchesPhaseFilters then false
  else event.recipientIDs.any (fun i => subscription.recipientIDs.contains i)

/-- isEligibleForDispatch from the package-game copy of the subscriptions
manager: same initialization of the phase check from recipientIDs, but an
event with empty RecipientIDs passes the recipient check. -/
def isEligibleForDispatchGame (subscription : SubscriptionEntry) (event : GameEvent) : Bool :=
  let matchesPhaseFilters :=
    subscription.recipientIDs.isEmpty || subscription.filteredPhases.contains event.phase
  if !matchesPhaseFilters then false
  else
    event.recipientIDs.isEmpty ||
      event.recipientIDs.any (fun i => subscription.recipientIDs.contains i)

/-- The filtering rule as the spec states it, for comparison with the two
source predicates: phase filter empty or matching the event's phase, and
recipient lists empty on either side or intersecting. -/
def specEligibleForDispatch (s : SubscriptionEntry) (e : GameEvent) : Bool :=
  (s.filteredPhases.isEmpty || s.filteredPhases.contains e.phase) &&
    (e.recipientIDs.isEmpty || s.recipientIDs.isEmpty ||
      e.recipientIDs.any (fun i => s.recipientIDs.contains i))

/-- DispatchEvent from src/subscriptions/subscriptions.go. The per-subscriber
goroutine outcome is abstracted to sendOk (true when the buffered send wins
the two-second race, false on timeout), indexed by the subscription's
position; disposed is the manager's disposal flag checked first.
maxBroadcasts counts every registered subscription, while a broadcast is
attempted (and can succeed) only for eligible ones, exactly as in the
source. -/
def DispatchEvent (disposed : Bool) (subs : List SubscriptionEntry)
    (event : GameEvent) (sendOk : Nat → Bool) : Option String :=
  if disposed then some "not accepting new event dispatches"
  else
    let maxBroadcasts := subs.length
    let successfulBroadcasts :=
      subs.enum.countP (fun p => isEligibleForDispatch p.2 event && sendOk p.1)
    if successfulBroadcasts ≠ maxBroadcasts then some "dispatch failed" else none

/-- dispatchUnsafe from the package-game copy of the subscriptions manager:
identical counting, with that package's eligibility predicate and the
comparison via unfulfilled = maxBroadcasts - successfulBroadcasts. -/
def dispatchUnsafe (subs : List SubscriptionEntry) (event : GameEvent)
    (sendOk : Nat → Bool) : Option String :=
  let maxBroadcasts := subs.length
  let successfulBroadcasts :=
    subs.enum.countP (fun p => isEligibleForDispatchGame p.2 event && sendOk p.1)
  if maxBroadcasts - successfulBroadcasts ≠ 0 then some "dispatch failed" else none

/-- Cell from bingo.go. -/
structure Cell where
  number : Ball
  daubed : Bool
deriving DecidableEq, Repr

/-- Card from bingo.go: a 5x5 grid of cells plus an identifier. -/
structure Card where
  cells : List (List Cell)
  id : Nat
deriving DecidableEq, Repr

def defaultCell : Cell := ⟨0, false⟩

/-- The source's card.Cells[i][colIndex] access, totalized with defaults (the
source would panic out of range; all cards in play are 5x5). -/
def cellGet (card : Card) (i j : Nat) : Cell :=
  (card.cells.getD i []).getD j defaultCell

/-- Write of cell.Daubed = daubValue through the pointer at (i, j): the same
grid with only that cell's daubed flag replaced. -/
def cardSetDaub (card : Card) (i j : Nat) (daubValue : Bool) : Card :=
  { card with
    cells := card.cells.set i
      ((card.cells.getD i []).set j ⟨(cellGet card i j).number, daubValue⟩) }

/-- The colIndex computation of setDaubValue from src/game/commanduser.go: the
subtraction cellNum - 1 is performed in the byte-sized Ball type, so the
free-space value 0 wraps to 255, and the divisor is MaxBallValue (75), both
as written in the source. -/
def daubColIndex (cellNum : Ball) : Nat := ((cellNum + 255) % 256) / MaxBallValue

/-- setDaubValue from src/game/commanduser.go: compute the column index, walk
rows 0..4 of that column, and daub the first cell whose Number equals
cellNum, or error when the walk finds none. -/
def setDaubValue (card : Card) (cellNum : Ball) (daubValue : Bool) : Except String Card :=
  match (List.range 5).find? (fun i => (cellGet card i (daubColIndex cellNum)).number == cellNum) with
  | none => Except.error "value does not exist in card"
  | some i => Except.ok (cardSetDaub card i (daubColIndex cellNum) daubValue)

/-- The colIndex computation of the handler copy with the free-space shortcut:
(int(ball) - 1) / MaxBallValue, reached only for ball ≥ 1. -/
def daubColIndexShortcutCopy (ball : Ball) : Nat := (ball - 1) / MaxBallValue

/-- The cell-locating core of setDaubValue from the handler copy that has the
free-space shortcut: value 0 daubs position (2,2) directly; any other value
uses its column index computation and the same column walk. -/
def setDaubValueShortcut (card : Card) (ball : Ball) (daubValue : Bool) : Except String Card :=
  if ball = 0 then Except.ok (cardSetDaub card 2 2 daubValue)
  else
    match (List.range 5).find?
        (fun i => (cellGet card i (daubColIndexShortcutCopy ball)).number == ball) with
    | none => Except.error "value does not exist in card"
    | some i => Except.ok (cardSetDaub card i (daubColIndexShortcutCopy ball) daubValue)

/-- The column index as the spec words it: (ball - 1) / 15. -/
def specColIndex (ball : Ball) : Nat := (ball - 1) / 15

/-- The cell-location rule as the spec words it, for comparison with the two
source functions: free-space shortcut to (2,2) for value 0, otherwise column
(ball - 1) / 15 and a walk down that column. -/
def setDaubValueSpec (card : Card) (ball : Ball) (daubValue : Bool) : Except String Card :=
  if ball = 0 then Except.ok (cardSetDaub card 2 2 daubValue)
  else
    match (List.range 5).find? (fun i => (cellGet card i (specColIndex ball)).number == ball) with
    | none => Except.error "value does not exist in card"
    | some i => Except.ok (cardSetDaub card i (specColIndex ball) daubValue)

/-- Whether the card holds a cell with the given number anywhere. -/
def containsNumber (card : Card) (v : Ball) : Bool :=
  card.cells.any (fun row => row.any (fun c => c.number == v))

/-- processPlayerDaub from the command-handler copy that dispatches events.
daubErr stands for the setDaubValue result for this command; the source
inspects it to pick the message and event type and dispatches to the
commander only, then returns the error. The branches are embedded exactly as
written: a non-nil error selects ("daubed card", update) and a nil error
selects ("failed to daub card", error). -/
def processPlayerDaub (daubErr : Option String) (commanderID : PlayerID)
    (phase : GamePhase) : GameEvent × Option String :=
  if daubErr.isSome then
    (⟨phase, GameEventType.update, "daubed card", [commanderID]⟩, daubErr)
  else
    (⟨phase, GameEventType.error, "failed to daub card", [commanderID]⟩, none)

/-- processPlayerUndoDaub, same copy: a non-nil error selects
("removed daub from card", update) and a nil error selects
("failed to remove daub from card", error). -/
def processPlayerUndoDaub (daubErr : Option String) (commanderID : PlayerID)
    (phase : GamePhase) : GameEvent × Option String :=
  if daubErr.isSome then
    (⟨phase, GameEventType.update, "removed daub from card", [commanderID]⟩, daubErr)
  else
    (⟨phase, GameEventType.error, "failed to remove daub from card", [commanderID]⟩, none)

/-- PlayerStatus from bingo.go. -/
inductive PlayerStatus where
  | host
  | active
  | waitlisted
  | suspended
  | banned
deriving DecidableEq, Repr

/-- The roster-relevant part of a player entry from src/game/game.go. -/
structure PlayerInfo where
  status : PlayerStatus
  pid : PlayerID
  name : String
  cards : List Card
deriving DecidableEq, Repr

/-- The JoinGame-relevant state of Game from src/game/game.go. -/
structure GameState where
  phase : GamePhase
  hostID : PlayerID
  systemID : PlayerID
  bannedPlayerIDs : List PlayerID
  cardPlayerEntries : List PlayerInfo
deriving DecidableEq, Repr

/-- The checkout loop of JoinGame: i from 0, n checkouts, first error aborts.
checkOut gives the i-th CheckOutCard result. -/
def checkOutCardsFrom (checkOut : Nat → Except String Card) (i : Nat) :
    Nat → Except String (List Card)
  | 0 => Except.ok []
  | Nat.succ n =>
    match checkOut i with
    | Except.error e => Except.error e
    | Except.ok c =>
      match checkOutCardsFrom checkOut (i + 1) n with
      | Except.error e => Except.error e
      | Except.ok rest => Except.ok (c :: rest)

/-- JoinGame from src/game/game.go. The card registry is abstracted to the
checkout oracle; the event channel and leaveGame callback do not affect the
roster and are omitted. The guards are the ones actually present in the
source — game-over phase, host ID, system ID, then an existing-entry lookup;
the source contains no check of bannedPlayerIDs. -/
def JoinGame (g : GameState) (checkOut : Nat → Except String Card)
    (playerID : PlayerID) (playerName : String) : Except String (PlayerInfo × GameState) :=
  if g.phase = GamePhase.gameOver then
    Except.error "cannot join game that has been terminated"
  else if playerID = g.hostID then
    Except.error "player cannot join game that they are hosting"
  else if playerID = g.systemID then
    Except.error "trying to add ID that belongs to system"
  else
    match g.cardPlayerEntries.find? (fun e => e.pid == playerID) with
    | some prevEntry => Except.ok (prevEntry, g)
    | none =>
      match checkOutCardsFrom checkOut 0 MaxCards with
      | Except.error e => Except.error e
      | Except.ok cards =>
        let status := if g.phase = GamePhase.roundStart then PlayerStatus.active
                      else PlayerStatus.waitlisted
        let newEntry : PlayerInfo := ⟨status, playerID, playerName, cards⟩
        Except.ok (newEntry, { g with cardPlayerEntries := g.cardPlayerEntries ++ [newEntry] })

/-- Command from src/game/game.go lines 356-378. handlerErr is the handler
result received back over the session's error channel; the source checks the
received error for nil and returns nil on both branches, as embedded here. -/
def Command (phase : GamePhase) (handlerErr : Option String) : Option String :=
  if phase = GamePhase.gameOver ∨ phase = GamePhase.initializationFailure then
    some "cannot send command while game is terminated"
  else if handlerErr.isNone then none
  else none

/-- Card grids as stored by the card registry: rows of ints with -1 for the
free space. -/
abbrev Grid := List (List Int)

/-- uniquenessThreshold from the card registry. -/
def uniquenessThreshold : Nat := 16

/-- The per-entry part of generateUniqueEntry's conflict count: positions
where the entry's cell is not the free space and equals the candidate's cell
at the same row and column. The source indexes the candidate grid by the
entry's own indices; zip realizes exactly those index pairs for the
non-panicking executions. -/
def countConflicts (entry newCells : Grid) : Nat :=
  ((entry.zip newCells).map
    (fun rows => (rows.1.zip rows.2).countP
      (fun c => decide (c.1 ≠ -1) && decide (c.1 = c.2)))).sum

/-- The accumulated conflict count over every registered entry, matching the
source's single cellConflicts accumulator. -/
def totalConflicts (entries : List Grid) (newCells : Grid) : Nat :=
  (entries.map (fun e => countConflicts e newCells)).sum

/-- The retry loop of generateUniqueEntry: gen gives the successive
generateCells results; fuel bounds the source's unbounded loop, and none
models not finding an acceptable candidate within the fuel. -/
def generateUniqueEntryLoop (entries : List Grid) (gen : Nat → Grid) :
    Nat → Nat → Option Grid
  | _, 0 => none
  | attempt, Nat.succ fuel =>
    let newCells := gen attempt
    if totalConflicts entries newCells ≤ uniquenessThreshold then some newCells
    else generateUniqueEntryLoop entries gen (attempt + 1) fuel

/-- generateUniqueEntry from the card registry: generate candidate grids until
the accumulated conflict count against every registered entry is within the
uniqueness threshold, and return the accepted grid (which the source then
appends to the registry under the same lock). -/
def generateUniqueEntry (entries : List Grid) (gen : Nat → Grid) (fuel : Nat) : Option Grid :=
  generateUniqueEntryLoop entries gen 0 fuel

/-- Summary of a ball-registry call result, for concrete evaluation: the
returned ball, the called list, whether the ball is still in uncalled, and
how many balls the registry holds in total afterwards. -/
def callSummary (r : Except String (Ball × BallRegistry)) :
    Option (Ball × List Ball × Bool × Nat) :=
  match r with
  | Except.ok (b, br) => some (b, br.called, br.uncalled.contains b, (br.called ++ br.uncalled).length)
  | Except.error _ => none

/-- Summary of a JoinGame result, for concrete evaluation: the joined
player's ID and the resulting roster size. -/
def joinSummary (r : Except String (PlayerInfo × GameState)) : Option (PlayerID × Nat) :=
  match r with
  | Except.ok (p, g) => some (p.pid, g.cardPlayerEntries.length)
  | Except.error _ => none

def isOkCard : Except String Card → Bool
  | Except.ok _ => true
  | Except.error _ => false

/-- A straight reference card: column j holds 15j+1 .. 15j+5 downwards, with
the free space at (2,2). -/
def stdCard : Card :=
  { id := 1,
    cells := (List.range 5).map (fun i => (List.range 5).map
      (fun j => if i = 2 ∧ j = 2 then ⟨0, false⟩ else ⟨15 * j + i + 1, false⟩)) }

/-- The balls produced by taking n successive automatic calls, oldest first;
stops early if the registry runs out. -/
def autoCallsList (br : BallRegistry) : Nat → List Ball
  | 0 => []
  | Nat.succ n =>
    match NextAutomaticCall br with
    | Except.ok r => r.1 :: autoCallsList r.2 n
    | Except.error _ => []

/-- A reference registry grid in the card registry's format: column-major
values 15j+i+1 with -1 at the free space. -/
def gridA : Grid :=
  (List.range 5).map (fun i => (List.range 5).map
    (fun j => if i = 2 ∧ j = 2 then (-1 : Int) else (15 * j + i + 1 : Int)))

/-- A candidate grid that differs from gridA at every non-free position. -/
def gridB : Grid :=
  (List.range 5).map (fun i => (List.range 5).map
    (fun j => if i = 2 ∧ j = 2 then (-1 : Int) else (15 * j + i + 7 : Int)))

/-- A second concrete card with shuffled in-column values (numbers in column j
lie in 15j+1 .. 15j+15, free space at (2,2)). -/
def mixedCard : Card :=
  { id := 2,
    cells :=
      [ [⟨5, false⟩, ⟨22, false⟩, ⟨31, false⟩, ⟨46, false⟩, ⟨61, false⟩],
        [⟨9, false⟩, ⟨18, false⟩, ⟨44, false⟩, ⟨47, false⟩, ⟨75, false⟩],
        [⟨3, false⟩, ⟨30, false⟩, ⟨0, false⟩, ⟨50, false⟩, ⟨64, false⟩],
        [⟨12, false⟩, ⟨25, false⟩, ⟨39, false⟩, ⟨55, false⟩, ⟨70, false⟩],
        [⟨1, false⟩, ⟨16, false⟩, ⟨42, false⟩, ⟨59, false⟩, ⟨68, false⟩] ] }

/-- Swapping two in-range positions, stated head-on for the cons case: moving
the k-th element to the front while overwriting position k permutes a cons. -/
theorem cons_getD_set_perm (t : List Ball) (k : Nat) (a : Ball) (hk : k < t.length) :
    (t.getD k 0 :: t.set k a).Perm (a :: t) := by
  induction t generalizing k with
  | nil => simp at hk
  | cons b t ih =>
    cases k with
    | zero => simpa using List.Perm.swap a b t
    | succ k =>
      simp only [List.getD_cons_succ, List.set_cons_succ]
      have h1 : (t.getD k 0 :: b :: t.set k a).Perm (b :: t.getD k 0 :: t.set k a) :=
        List.Perm.swap b (t.getD k 0) (t.set k a)
      have h2 : (b :: t.getD k 0 :: t.set k a).Perm (b :: a :: t) :=
        (ih k (by simpa using hk)).cons b
      have h3 : (b :: a :: t).Perm (a :: b :: t) := List.Perm.swap a b t
      exact h1.trans (h2.trans h3)

/-- The Fisher-Yates swap is a permutation when both indices are in range. -/
theorem swapAt_perm (l : List Ball) (i j : Nat) (hi : i < l.length) (hj : j < l.length) :
    (swapAt l i j).Perm l := by
  induction l generalizing i j with
  | nil => simp at hi
  | cons a t ih =>
    cases i with
    | zero =>
      cases j with
      | zero =>
        simp [swapAt]
      | succ k =>
        simp only [swapAt, List.getD_cons_succ, List.getD_cons_zero, List.set_cons_zero,
          List.set_cons_succ]
        exact cons_getD_set_perm t k a (by simpa using hj)
    | succ m =>
      cases j with
      | zero =>
        simp only [swapAt, List.getD_cons_zero, List.getD_cons_succ, List.set_cons_succ,
          List.set_cons_zero]
        exact cons_getD_set_perm t m a (by simpa using hi)
      | succ k =>
        simp only [swapAt, List.getD_cons_succ, List.set_cons_succ]
        exact (ih m k (by simpa using hi) (by simpa using hj)).cons a

/-- Every pass of the shuffle loop permutes the list, as long as the loop
index stays in range. -/
theorem shuffleStep_perm (n : Nat) : ∀ (l : List Ball) (s : Shuffler), n < l.length →
    ((shuffleStep l s n).1).Perm l := by
  induction n with
  | zero => intro l s _; exact List.Perm.refl _
  | succ i ih =>
    intro l s h
    simp only [shuffleStep]
    have hj : (s.intn (i + 2)).1 < l.length := by
      have : (s.intn (i + 2)).1 < i + 2 := Nat.mod_lt _ (by omega)
      omega
    have hswap := swapAt_perm l (i + 1) (s.intn (i + 2)).1 h hj
    have hlen : (swapAt l (i + 1) (s.intn (i + 2)).1).length = l.length := by
      simp [swapAt]
    have hrec := ih (swapAt l (i + 1) (s.intn (i + 2)).1) (s.intn (i + 2)).2 (by omega)
    exact hrec.trans hswap

/-- shuffleBalls returns a permutation of its input for every draw stream. -/
theorem shuffleBalls_perm (s : Shuffler) (l : List Ball) : ((shuffleBalls s l).1).Perm l := by
  unfold shuffleBalls
  rcases Nat.eq_zero_or_pos l.length with h | h
  · have h0 : l.length - 1 = 0 := by omega
    rw [h0]
    exact List.Perm.refl _
  · exact shuffleStep_perm (l.length - 1) l s (Nat.sub_lt h Nat.one_pos)

/-- Unfolding equation for the uncalled field of Reset. -/
theorem Reset_uncalled (br : BallRegistry) :
    (Reset br).uncalled = (shuffleBalls br.shuffler (generateBingoBallsForRange 1 75)).1 := by
  simp only [Reset]

/-- Unfolding equation for the called field of Reset. -/
theorem Reset_called (br : BallRegistry) : (Reset br).called = [] := by
  simp only [Reset]

/-- C7 (amended): after any sequence of automatic calls, manual calls, and
resets on a registry built from any draw stream, Reset clears called and
re-deals uncalled as a permutation of the regenerated range 1..75 — drawn
from the registry's persistent shuffler at its advanced position, not from a
fresh seed-state, so equality with a freshly constructed registry is not part
of the contract. -/
theorem reset_clears_called_and_permutes (stream : Nat → Nat) (ops : List BallOp) :
    (Reset (applyBallOps (newBallRegistry stream) ops)).called = [] ∧
    ((Reset (applyBallOps (newBallRegistry stream) ops)).uncalled).Perm
      (generateBingoBallsForRange 1 75) ∧
    generateBingoBallsForRange 1 75 = List.range' 1 75 := by
  refine ⟨Reset_called _, ?_, by simp [generateBingoBallsForRange, MaxBallValue]⟩
  rw [Reset_uncalled]
  exact shuffleBalls_perm (applyBallOps (newBallRegistry stream) ops).shuffler
    (generateBingoBallsForRange 1 75)

set_option maxRecDepth 8000 in
/-- C7 (counterexample): for the identity draw stream, Reset on a freshly
constructed registry yields a different uncalled order than the fresh
registry itself, and the first three automatic calls after Reset differ from
the fresh registry's triple — because Reset reshuffles with the shuffler's
advanced stream position instead of the seed's initial state. -/
theorem reset_not_fresh_for_identity_stream :
    (Reset (newBallRegistry (fun n => n))).uncalled ≠ (newBallRegistry (fun n => n)).uncalled ∧
    autoCallsList (Reset (newBallRegistry (fun n => n))) 3 ≠
      autoCallsList (newBallRegistry (fun n => n)) 3 := by
  constructor
  · decide
  · decide

set_option maxRecDepth 8000 in
/-- C1: the src/game/ballregistry.go copy of NextAutomaticCall pops the last
element of uncalled and returns it but never appends it to called. On a fresh
registry over the constant-zero draw stream it returns ball 1 with called
still empty, ball 1 gone from uncalled, and only 74 balls left in the whole
registry — so called and uncalled no longer cover 1..75. The sibling copy
nextAutomaticCall (the one defining getCalledBalls) does append, keeping all
75 balls accounted for. -/
theorem nextAutomaticCall_src_drops_called :
    callSummary (NextAutomaticCall (newBallRegistry (fun _ => 0))) = some (1, [], false, 74) ∧
    callSummary (nextAutomaticCall (newBallRegistry (fun _ => 0))) = some (1, [1], false, 75) := by
  constructor
  · decide
  · decide

/-- C2: a subscriber with no phase filter but a non-empty recipient filter is
eligible for a broadcast event (empty RecipientIDs) under the spec's
filtering rule, yet both source copies of isEligibleForDispatch reject it:
they initialize the phase-match flag from the emptiness of the subscriber's
recipientIDs instead of its filteredPhases. -/
theorem isEligibleForDispatch_misses_broadcast :
    specEligibleForDispatch ⟨0, [], [1]⟩ ⟨GamePhase.calling, GameEventType.update, "", []⟩ = true ∧
    isEligibleForDispatch ⟨0, [], [1]⟩ ⟨GamePhase.calling, GameEventType.update, "", []⟩ = false ∧
    isEligibleForDispatchGame ⟨0, [], [1]⟩
      ⟨GamePhase.calling, GameEventType.update, "", []⟩ = false := by
  decide

/-- C3 (counterexample): with a single registered subscriber that does not
match the event, no send is attempted and no matching subscriber times out,
yet both dispatch routines report a partial failure, because maxBroadcasts
counts every registered subscription rather than the eligible ones. -/
theorem dispatchEvent_errors_without_matching_failure :
    DispatchEvent false [⟨0, [], [5]⟩] ⟨GamePhase.calling, GameEventType.update, "", []⟩
      (fun _ => true) = some "dispatch failed" ∧
    dispatchUnsafe [⟨0, [], [5]⟩] ⟨GamePhase.calling, GameEventType.update, "", []⟩
      (fun _ => true) = some "dispatch failed" ∧
    ([(⟨0, [], [5]⟩ : SubscriptionEntry)].countP
      (fun s => isEligibleForDispatch s ⟨GamePhase.calling, GameEventType.update, "", []⟩)) = 0 ∧
    ([(⟨0, [], [5]⟩ : SubscriptionEntry)].countP
      (fun s => isEligibleForDispatchGame s
        ⟨GamePhase.calling, GameEventType.update, "", []⟩)) = 0 := by
  decide

/-- C3 (amended): a dispatch on a live manager returns nil exactly when every
registered subscription — matching or not — is eligible for the event and its
send succeeded; hence a timeout of a matching subscriber always produces the
partial-failure error, but so does the mere presence of a non-matching
registered subscriber. -/
theorem dispatch_none_iff_all_registered (subs : List SubscriptionEntry) (event : GameEvent)
    (sendOk : Nat → Bool) :
    (DispatchEvent false subs event sendOk = none ↔
      ∀ p ∈ subs.enum, isEligibleForDispatch p.2 event = true ∧ sendOk p.1 = true) ∧
    (dispatchUnsafe subs event sendOk = none ↔
      ∀ p ∈ subs.enum, isEligibleForDispatchGame p.2 event = true ∧ sendOk p.1 = true) := by
  have hlen1 : subs.enum.length = subs.length := List.enum_length
  have key : ∀ (pred : Nat × SubscriptionEntry → Bool),
      (subs.enum.countP pred = subs.length ↔ ∀ p ∈ subs.enum, pred p = true) := by
    intro pred
    rw [← hlen1]
    exact List.countP_eq_length
  constructor
  · have hd : DispatchEvent false subs event sendOk =
        (if (subs.enum.countP fun p => isEligibleForDispatch p.2 event && sendOk p.1) ≠ subs.length
         then some "dispatch failed" else none) := by
      simp [DispatchEvent]
    rw [hd]
    by_cases hc : (subs.enum.countP fun p => isEligibleForDispatch p.2 event && sendOk p.1)
        = subs.length
    · simp only [hc, ne_eq, not_true_eq_false, if_false, true_iff]
      intro p hp
      have h2 := (key _).mp hc p hp
      simpa [Bool.and_eq_true] using h2
    · simp only [ne_eq, hc, not_false_eq_true, if_true]
      refine ⟨fun h => absurd h (by simp), fun hall => absurd ((key _).mpr ?_) hc⟩
      intro p hp
      have h3 := hall p hp
      simp only [Bool.and_eq_true]
      exact ⟨h3.1, h3.2⟩
  · have hd2 : dispatchUnsafe subs event sendOk =
        (if subs.length -
            (subs.enum.countP fun p => isEligibleForDispatchGame p.2 event && sendOk p.1) ≠ 0
         then some "dispatch failed" else none) := by
      simp [dispatchUnsafe]
    rw [hd2]
    have hle : (subs.enum.countP fun p => isEligibleForDispatchGame p.2 event && sendOk p.1)
        ≤ subs.length := by
      rw [← hlen1]
      exact List.countP_le_length _
    by_cases hc : (subs.enum.countP fun p => isEligibleForDispatchGame p.2 event && sendOk p.1)
        = subs.length
    · simp only [hc, Nat.sub_self, ne_eq, not_true_eq_false, if_false, true_iff]
      intro p hp
      have h2 := (key _).mp hc p hp
      simpa [Bool.and_eq_true] using h2
    · have hne : subs.length -
          (subs.enum.countP fun p => isEligibleForDispatchGame p.2 event && sendOk p.1) ≠ 0 := by
        omega
      simp only [ne_eq, hne, not_false_eq_true, if_true]
      refine ⟨fun h => absurd h (by simp), fun hall => absurd ((key _).mpr ?_) hc⟩
      intro p hp
      have h3 := hall p hp
      simp only [Bool.and_eq_true]
      exact ⟨h3.1, h3.2⟩

/-- C3 (witness): a single subscriber matching the event on both filters with
a successful send makes DispatchEvent return nil, via the amended
characterization. -/
theorem dispatch_none_iff_witness :
    DispatchEvent false [⟨0, [GamePhase.calling], [5]⟩]
      ⟨GamePhase.calling, GameEventType.update, "", [5]⟩ (fun _ => true) = none :=
  (dispatch_none_iff_all_registered [⟨0, [GamePhase.calling], [5]⟩]
    ⟨GamePhase.calling, GameEventType.update, "", [5]⟩ (fun _ => true)).1.mpr (by decide)

/-- C4: the standard card contains 16 (column I), yet both source copies of
setDaubValue fail to daub it, because their column index divides by
MaxBallValue (75) instead of 15, sending every ball 1..75 to column 0; the
spec's locator with divisor 15 succeeds on the same card. The
commanduser.go copy also has no free-space shortcut: daubing value 0 fails
even though the card contains the free space at (2,2) (the byte wraparound
sends 0 to column 3). -/
theorem setDaubValue_wrong_column_divisor :
    containsNumber stdCard 16 = true ∧
    isOkCard (setDaubValue stdCard 16 true) = false ∧
    isOkCard (setDaubValueShortcut stdCard 16 true) = false ∧
    isOkCard (setDaubValueSpec stdCard 16 true) = true ∧
    containsNumber stdCard 0 = true ∧
    isOkCard (setDaubValue stdCard 0 true) = false := by
  decide

/-- C5: Command returns nil even when the handler produced an error — the
source ends with a nil-check whose both branches return nil — so handler
errors are not propagated to the caller; only the terminated-phase guard
produces an error. -/
theorem command_swallows_handler_error :
    Command GamePhase.calling (some "handler failure") = none ∧
    Command GamePhase.calling none = none ∧
    Command GamePhase.gameOver none = some "cannot send command while game is terminated" := by
  decide

/-- C6: player 7 is on the banned list, yet JoinGame admits them and appends a
roster entry — the source never consults bannedPlayerIDs. -/
theorem joinGame_admits_banned_player :
    7 ∈ (⟨GamePhase.roundStart, 1, 2, [7], []⟩ : GameState).bannedPlayerIDs ∧
    joinSummary (JoinGame ⟨GamePhase.roundStart, 1, 2, [7], []⟩
      (fun _ => Except.ok ⟨[], 9⟩) 7 "banned player") = some (7, 1) := by
  decide

/-- C8: the daub handlers dispatch an Error event with the failure message
when the daub succeeded and an Update event with the success message when it
failed — the success and failure branches are swapped relative to the
claimed Update-on-success, Error-on-failure mapping. -/
theorem processPlayerDaub_swaps_update_and_error :
    (processPlayerDaub none 5 GamePhase.calling).1.etype = GameEventType.error ∧
    (processPlayerDaub none 5 GamePhase.calling).1.message = "failed to daub card" ∧
    (processPlayerDaub (some "no such value") 5 GamePhase.calling).1.etype = GameEventType.update ∧
    (processPlayerDaub (some "no such value") 5 GamePhase.calling).1.message = "daubed card" ∧
    (processPlayerUndoDaub none 5 GamePhase.calling).1.etype = GameEventType.error ∧
    (processPlayerUndoDaub (some "no such value") 5 GamePhase.calling).1.etype
      = GameEventType.update := by
  decide

/-- C9: any grid accepted by generateUniqueEntry's retry loop has accumulated
conflict count within the uniqueness threshold, and therefore overlaps each
previously registered entry in at most 16 non-free cells. -/
theorem generateUniqueEntry_overlap_le_threshold (entries : List Grid) (gen : Nat → Grid)
    (fuel : Nat) (g : Grid) (h : generateUniqueEntry entries gen fuel = some g) :
    ∀ e ∈ entries, countConflicts e g ≤ uniquenessThreshold := by
  have key : ∀ (fl attempt : Nat), generateUniqueEntryLoop entries gen attempt fl = some g →
      totalConflicts entries g ≤ uniquenessThreshold := by
    intro fl
    induction fl with
    | zero =>
      intro attempt h0
      exact absurd h0 (by simp [generateUniqueEntryLoop])
    | succ f ih =>
      intro attempt h0
      simp only [generateUniqueEntryLoop] at h0
      by_cases hc : totalConflicts entries (gen attempt) ≤ uniquenessThreshold
      · rw [if_pos hc] at h0
        have hg := Option.some.inj h0
        exact hg ▸ hc
      · rw [if_neg hc] at h0
        exact ih (attempt + 1) h0
  intro e he
  have htot := key fuel 0 h
  have hmem : countConflicts e g ∈ entries.map (fun x => countConflicts x g) :=
    List.mem_map_of_mem (fun x => countConflicts x g) he
  have hle : countConflicts e g ≤ totalConflicts entries g :=
    List.single_le_sum (fun x _ => Nat.zero_le x) _ hmem
  omega

/-- C9 (witness): against the registry holding gridA, the generator offering
gridB is accepted on the first attempt, and the per-entry overlap bound
follows from the theorem at that concrete input. -/
theorem generateUniqueEntry_overlap_witness :
    generateUniqueEntry [gridA] (fun _ => gridB) 1 = some gridB ∧
    ∀ e ∈ [gridA], countConflicts e gridB ≤ uniquenessThreshold :=
  ⟨by decide,
    generateUniqueEntry_overlap_le_threshold [gridA] (fun _ => gridB) 1 gridB (by decide)⟩

/-- C10: mixedCard contains 31 (a column-N value), yet setDaubValue returns an
error for it, contradicting the function's own doc comment that an error is
only returned when the requested value does not exist in the card; the
spec-worded locator succeeds on the same input. -/
theorem setDaubValue_errors_on_present_value :
    containsNumber mixedCard 31 = true ∧
    isOkCard (setDaubValue mixedCard 31 true) = false ∧
    isOkCard (setDaubValueSpec mixedCard 31 true) = true := by
  decide

/-- Writing an already-written value leaves a list unchanged. -/
theorem set_getD (l : List α) (n : Nat) (d : α) : l.set n (l.getD n d) = l := by
  induction l generalizing n with
  | nil => simp
  | cons a t ih =>
    cases n with
    | zero => simp
    | succ m => rw [List.getD_cons_succ, List.set_cons_succ, ih m]

/-- Reading beside a write sees the old list. -/
theorem getD_set_ne (l : List α) (i j : Nat) (x d : α) (h : j ≠ i) :
    (l.set i x).getD j d = l.getD j d := by
  induction l generalizing i j with
  | nil => simp
  | cons a t ih =>
    cases i with
    | zero =>
      cases j with
      | zero => exact absurd rfl h
      | succ m => simp
    | succ k =>
      cases j with
      | zero => simp
      | succ m =>
        simp only [List.set_cons_succ, List.getD_cons_succ]
        exact ih k m (fun he => h (by rw [he]))

/-- Reading an in-range write sees the written value. -/
theorem getD_set_lt (l : List α) (i : Nat) (x d : α) (h : i < l.length) :
    (l.set i x).getD i d = x := by
  induction l generalizing i with
  | nil => simp at h
  | cons a t ih =>
    cases i with
    | zero => simp
    | succ m =>
      simp only [List.set_cons_succ, List.getD_cons_succ]
      exact ih m (by simpa using h)

/-- Daubing never changes any cell's Number. -/
theorem cellGet_cardSetDaub_number (card : Card) (i j i' j' : Nat) (b : Bool) :
    (cellGet (cardSetDaub card i j b) i' j').number = (cellGet card i' j').number := by
  obtain ⟨cells, idv⟩ := card
  simp only [cardSetDaub, cellGet]
  by_cases hi : i' = i
  · subst hi
    by_cases hlen : i' < cells.length
    · rw [getD_set_lt _ _ _ _ hlen]
      by_cases hj : j' = j
      · subst hj
        by_cases hjlen : j' < (cells.getD i' []).length
        · rw [getD_set_lt _ _ _ _ hjlen]
        · rw [List.set_eq_of_length_le (Nat.le_of_not_lt hjlen)]
      · rw [getD_set_ne _ _ _ _ _ hj]
    · rw [List.set_eq_of_length_le (Nat.le_of_not_lt hlen)]
  · rw [getD_set_ne _ _ _ _ _ hi]

/-- Setting the same daub state twice at the same position is the same as
setting it once. -/
theorem cardSetDaub_idem (card : Card) (i j : Nat) (b : Bool) :
    cardSetDaub (cardSetDaub card i j b) i j b = cardSetDaub card i j b := by
  obtain ⟨cells, idv⟩ := card
  simp only [cardSetDaub, cellGet]
  by_cases hlen : i < cells.length
  · by_cases hjlen : j < (cells.getD i []).length
    · rw [getD_set_lt _ _ _ _ hlen]
      rw [getD_set_lt _ _ _ _ (by simpa using hjlen)]
      rw [List.set_set, List.set_set]
    · rw [List.set_eq_of_length_le (Nat.le_of_not_lt hjlen), set_getD]
      rw [List.set_eq_of_length_le (Nat.le_of_not_lt hjlen), set_getD]
  · rw [List.set_eq_of_length_le (Nat.le_of_not_lt hlen)]
    rw [List.set_eq_of_length_le (Nat.le_of_not_lt hlen)]

/-- The no-op half of the idempotency claim holds for the source: a
successful setDaubValue is idempotent — repeating the call with the same
arguments returns the same card with no error (the cell is found again at
the same position since numbers never change, and rewriting the same daub
state changes nothing). -/
theorem setDaubValue_idempotent (card : Card) (v : Ball) (b : Bool) (c : Card)
    (h : setDaubValue card v b = Except.ok c) : setDaubValue c v b = Except.ok c := by
  unfold setDaubValue at h ⊢
  cases hfind : (List.range 5).find? (fun i => (cellGet card i (daubColIndex v)).number == v) with
  | none =>
    rw [hfind] at h
    exact absurd h (by simp)
  | some i0 =>
    rw [hfind] at h
    have hc : c = cardSetDaub card i0 (daubColIndex v) b := (Except.ok.inj h).symm
    have hpred : (fun i => (cellGet c i (daubColIndex v)).number == v)
        = (fun i => (cellGet card i (daubColIndex v)).number == v) := by
      funext i
      rw [hc, cellGet_cardSetDaub_number]
    rw [hpred, hfind]
    show Except.ok (cardSetDaub c i0 (daubColIndex v) b) = Except.ok c
    rw [hc, cardSetDaub_idem]

end BingoSpec
